import Mathlib

/-!
Verification of the FINRA NFCS 2012 cleaning and analysis pipeline
(`clean_data.py` and `analysis.py`) against its specification.

The tabular data is embedded shallowly: a cell is an integer code, a
string, or missing (pandas `NaN`); a code map is an association list
from integer codes to label strings, exactly as written in the source.
Definitions come first, followed by the theorems about them.
-/

namespace NFCS

/-- A cell of the tabular dataset: an integer survey code, a string
(label or raw text), or missing (`NaN`). -/
inductive Cell where
  | intv : Int → Cell
  | strv : String → Cell
  | na   : Cell
deriving DecidableEq, Repr

/-- A code map: association list from integer survey codes to labels,
first binding wins (Python dict literals here have distinct keys). -/
abbrev CodeMap := List (Int × String)

/-- `DK_REF = {98: "Don't know", 99: "Prefer not to say"}` -/
def DK_REF : CodeMap := [(98, "Don't know"), (99, "Prefer not to say")]

/-- `YES_NO = {1: "Yes", 2: "No", **DK_REF}` -/
def YES_NO : CodeMap := [(1, "Yes"), (2, "No")] ++ DK_REF

/-- `FREQ_1_3 = {1: "Frequently", 2: "Sometimes", 3: "Never", **DK_REF}` -/
def FREQ_1_3 : CodeMap := [(1, "Frequently"), (2, "Sometimes"), (3, "Never")] ++ DK_REF

/-- `AGREE_1_7`: the 1–7 agreement scale; codes 2,3,5,6 map to the empty string. -/
def AGREE_1_7 : CodeMap :=
  [(1, "Strongly disagree"), (2, ""), (3, ""), (4, "Neither"), (5, ""), (6, ""),
   (7, "Strongly agree")] ++ DK_REF

/-- `SCALE_1_7_KNOW`: the 1–7 self-assessed knowledge scale. -/
def SCALE_1_7_KNOW : CodeMap :=
  [(1, "Very low"), (2, ""), (3, ""), (4, ""), (5, ""), (6, ""), (7, "Very high")] ++ DK_REF

/-- `SCALE_1_10 = {**{i: str(i) for i in range(1, 11)}, **DK_REF}` -/
def SCALE_1_10 : CodeMap :=
  [(1, "1"), (2, "2"), (3, "3"), (4, "4"), (5, "5"), (6, "6"), (7, "7"), (8, "8"),
   (9, "9"), (10, "10")] ++ DK_REF

/-- `TRUE_FALSE = {1: "True", 2: "False", **DK_REF}` -/
def TRUE_FALSE : CodeMap := [(1, "True"), (2, "False")] ++ DK_REF

/-- `A3_gender = {1: "Male", 2: "Female"}` — note: no 98/99 entries. -/
def A3_gender : CodeMap := [(1, "Male"), (2, "Female")]

/-- `A5_edu`: education; only 99 has a sentinel entry, not 98. -/
def A5_edu : CodeMap :=
  [(1, "Did not complete high school"), (2, "High school diploma"),
   (3, "GED/alternative credential"), (4, "Some college"), (5, "College graduate"),
   (6, "Post graduate"), (99, "Prefer not to say")]

/-- `A6_marital` -/
def A6_marital : CodeMap :=
  [(1, "Married"), (2, "Single"), (3, "Separated"), (4, "Divorced"), (5, "Widowed"),
   (99, "Prefer not to say")]

/-- `A7_living` -/
def A7_living : CodeMap :=
  [(1, "Only adult in household"), (2, "Live with spouse/partner"),
   (3, "Live in parents' home"), (4, "Live with other family/friends/roommates"),
   (99, "Prefer not to say")]

/-- `A11_children` -/
def A11_children : CodeMap :=
  [(1, "1"), (2, "2"), (3, "3"), (4, "4 or more"), (5, "No financially dependent children"),
   (6, "No children"), (99, "Prefer not to say")]

/-- `A8_income` -/
def A8_income : CodeMap :=
  [(1, "< $15,000"), (2, "$15k–$24,999"), (3, "$25k–$34,999"), (4, "$35k–$49,999"),
   (5, "$50k–$74,999"), (6, "$75k–$99,999"), (7, "$100k–$149,999"), (8, "$150k+")] ++ DK_REF

/-- `AM21_22_service` -/
def AM21_22_service : CodeMap :=
  [(1, "Currently member"), (2, "Previously member"), (3, "Never member"),
   (99, "Prefer not to say")]

/-- `A9_work` -/
def A9_work : CodeMap :=
  [(1, "Self-employed"), (2, "Employed full-time"), (3, "Employed part-time"),
   (4, "Homemaker"), (5, "Full-time student"), (6, "Unable to work"),
   (7, "Unemployed/laid off"), (8, "Retired"), (99, "Prefer not to say")]

/-- `E4a_buy_year` -/
def E4a_buy_year : CodeMap :=
  [(1, "1999 or earlier"), (2, "2000"), (3, "2001"), (4, "2002"), (5, "2003"),
   (6, "2004"), (7, "2005"), (8, "2006"), (9, "2007"), (10, "2008"), (11, "2009"),
   (12, "2010"), (13, "2011"), (14, "2012"), (97, "Did not purchase")] ++ DK_REF

/-- `F1_cc_num` -/
def F1_cc_num : CodeMap :=
  [(1, "1"), (2, "2–3"), (3, "4–8"), (4, "9–12"), (5, "13–20"), (6, ">20"),
   (7, "No credit cards")] ++ DK_REF

/-- `G25_freq` -/
def G25_freq : CodeMap :=
  [(1, "Never"), (2, "1 time"), (3, "2 times"), (4, "3 times"), (5, "4+ times")] ++ DK_REF

/-- The inline map for column M6 in `COLUMN_MAPS`. -/
def M6_map : CodeMap :=
  [(1, "More than $102"), (2, "Exactly $102"), (3, "Less than $102")] ++ DK_REF

/-- The inline map for column M7 in `COLUMN_MAPS`. -/
def M7_map : CodeMap :=
  [(1, "More than today"), (2, "Exactly the same"), (3, "Less than today")] ++ DK_REF

/-- The inline map for column M8 in `COLUMN_MAPS`. -/
def M8_map : CodeMap :=
  [(1, "Rise"), (2, "Fall"), (3, "Same"), (4, "No relationship")] ++ DK_REF

/-- `COLUMN_MAPS`: the exact-column registry, in source order. -/
def COLUMN_MAPS : List (String × CodeMap) :=
  [("A3", A3_gender), ("A5", A5_edu), ("A6", A6_marital), ("A7", A7_living),
   ("A11", A11_children), ("A8", A8_income), ("AM21", AM21_22_service),
   ("AM22", AM21_22_service), ("A9", A9_work),
   ("E4a", E4a_buy_year),
   ("F1", F1_cc_num),
   ("M6", M6_map), ("M7", M7_map), ("M8", M8_map), ("M9", TRUE_FALSE), ("M10", TRUE_FALSE),
   ("G23", AGREE_1_7),
   ("J1", SCALE_1_10), ("J2", SCALE_1_10), ("M4", SCALE_1_7_KNOW)]

/-- `PREFIX_MAPS`: the column-name-prefix registry, in source order. -/
def PREFIX_MAPS : List (String × CodeMap) :=
  [("B20_", YES_NO), ("B22_", FREQ_1_3), ("K_", YES_NO), ("D20_", YES_NO),
   ("F2_", YES_NO), ("G25_", G25_freq), ("M21_", YES_NO), ("M1_", AGREE_1_7)]

/-- The `mixed` dict of `apply_map_safe`: `{**m, **{str(k): v for k, v in m.items()}}` —
integer keys plus their decimal-string forms (an int key and a str key never collide
in a Python dict, so the append order is immaterial). -/
def mixed (m : CodeMap) : List (Cell × String) :=
  m.map (fun p => (Cell.intv p.1, p.2)) ++ m.map (fun p => (Cell.strv (toString p.1), p.2))

/-- Python dict lookup (first matching key). -/
def dictLookup (d : List (Cell × String)) (v : Cell) : Option String :=
  (d.find? (fun p => decide (p.1 = v))).map (fun p => p.2)

/-- One cell of `s.map(mixed)`: the mapped label if the cell's value is a key of
the dict, and `NaN` otherwise (also `NaN` for `NaN`, which is never a key). -/
def seriesMap (m : CodeMap) (v : Cell) : Cell :=
  match dictLookup (mixed m) v with
  | some lbl => Cell.strv lbl
  | none => Cell.na

/-- One cell of `.fillna(s)`: replace a missing mapped value by the original. -/
def fillna (orig mapped : Cell) : Cell :=
  if mapped = Cell.na then orig else mapped

/-- `apply_map_safe(s, m) = s.map(mixed).fillna(s)`, per cell. -/
def apply_map_safe (m : CodeMap) (v : Cell) : Cell :=
  fillna v (seriesMap m v)

/-- Lookup of an integer code among the map's integer keys. -/
def lookupCode (m : CodeMap) (n : Int) : Option String :=
  (m.find? (fun p => decide (p.1 = n))).map (fun p => p.2)

/-- Lookup of a string among the decimal-string forms of the map's keys. -/
def lookupStr (m : CodeMap) (s : String) : Option String :=
  (m.find? (fun p => decide (toString p.1 = s))).map (fun p => p.2)

/-- The special case for column E5: the composition of the two pandas
`replace` calls `replace({-98: "Don't know", -99: "Prefer not to say"})`
followed by `replace({"-98": "Don't know", "-99": "Prefer not to say"})`
(the labels produced by the first call are not keys of the second,
so the composition is this single if-chain); all other values — in
particular the substantive numeric percentages — are preserved. -/
def e5Replace (v : Cell) : Cell :=
  if v = Cell.intv (-98) then Cell.strv "Don't know"
  else if v = Cell.intv (-99) then Cell.strv "Prefer not to say"
  else if v = Cell.strv "-98" then Cell.strv "Don't know"
  else if v = Cell.strv "-99" then Cell.strv "Prefer not to say"
  else v

/-- The special case for column A3a (age):
`replace({999: "Prefer not to say", "999": "Prefer not to say"})`. -/
def a3aReplace (v : Cell) : Cell :=
  if v = Cell.intv 999 then Cell.strv "Prefer not to say"
  else if v = Cell.strv "999" then Cell.strv "Prefer not to say"
  else v

/-- The two sentinel labels of `DK_REF`, plus nothing else. -/
def isSentinelLabel (s : String) : Bool :=
  decide (s = "Don't know") || decide (s = "Prefer not to say")

/-- Sentinel discipline of one code map: each of the raw codes 98 and 99
either recodes (from its numeric form and from its string form alike) to a
sentinel label, or — when the map has no entry for it — passes through
`apply_map_safe` entirely unchanged. -/
def sentinelOk (m : CodeMap) : Bool :=
  ([98, 99] : List Int).all fun c =>
    match lookupCode m c with
    | some lbl => isSentinelLabel lbl
    | none =>
        decide (apply_map_safe m (Cell.intv c) = Cell.intv c)
          && decide (apply_map_safe m (Cell.strv (toString c)) = Cell.strv (toString c))

/-- Python `col.startswith(pre)` on column names. -/
def strStarts (s pre : String) : Bool := pre.data.isPrefixOf s.data

/-- The exact-column pass of section 5 of `clean_data.py`: a column named in
`COLUMN_MAPS` gets its map applied, any other column is untouched. -/
def exactStep (col : String) (v : Cell) : Cell :=
  match COLUMN_MAPS.find? (fun p => decide (p.1 = col)) with
  | some pm => apply_map_safe pm.2 v
  | none => v

/-- One iteration of the prefix-batch loop: apply the prefix map when the
column name starts with the prefix. -/
def foldPrefixStep (col : String) (acc : Cell) (pm : String × CodeMap) : Cell :=
  if strStarts col pm.1 then apply_map_safe pm.2 acc else acc

/-- The prefix-batch pass: every map of `PREFIX_MAPS` whose prefix matches
the column name is applied, in declared order. -/
def prefixStep (col : String) (v : Cell) : Cell :=
  PREFIX_MAPS.foldl (foldPrefixStep col) v

/-- The E5 special-case pass. -/
def e5Step (col : String) (v : Cell) : Cell :=
  if col = "E5" then e5Replace v else v

/-- The A3a special-case pass. -/
def a3aStep (col : String) (v : Cell) : Cell :=
  if col = "A3a" then a3aReplace v else v

/-- The Recoder's full mapping pass on one cell of a named column:
exact-column maps, then prefix maps, then the special cases, in the
order of `clean_data.py`. -/
def recodeCell (col : String) (v : Cell) : Cell :=
  a3aStep col (e5Step col (prefixStep col (exactStep col v)))

/-- Decidable check that a map's labels are fixed points of its own safe
mapping (so that a second application cannot remap them). -/
def mapIdem (m : CodeMap) : Bool :=
  m.all fun p => decide (apply_map_safe m (Cell.strv p.2) = Cell.strv p.2)

/-- `pd.to_numeric(df["Age"], errors="coerce")` on one cell: an integer
passes through, a string parses as a decimal integer or coerces to
missing, and missing stays missing. -/
def to_numeric : Cell → Option Int
  | Cell.intv n => some n
  | Cell.strv s => s.toInt?
  | Cell.na => none

/-- The bin edges of `pd.cut`: `bins = [17, 24, 34, 44, 54, 64, 120]`. -/
def age_bins : List Int := [17, 24, 34, 44, 54, 64, 120]

/-- `labels = ["18-24", "25-34", "35-44", "45-54", "55-64", "65+"]`. -/
def age_labels : List String := ["18-24", "25-34", "35-44", "45-54", "55-64", "65+"]

/-- The interval scan of `pd.cut` with `right=True`: the value falls in the
first half-open interval `(lo, hi]` formed by consecutive bin edges. -/
def cutScan (lo : Int) : List Int → List String → Int → Option String
  | hi :: bs, lbl :: ls, x =>
      if lo < x ∧ x ≤ hi then some lbl else cutScan hi bs ls x
  | _, _, _ => none

/-- `pd.cut(x, bins=bins, labels=labels, right=True)` on one numeric value;
values outside every interval map to missing. -/
def pd_cut (bins : List Int) (labels : List String) (x : Int) : Option String :=
  match bins with
  | b :: bs => cutScan b bs labels x
  | [] => none

/-- `df["Age_group"] = pd.cut(pd.to_numeric(df["Age"], errors="coerce"), ...)`
on one cell. -/
def Age_group (age : Cell) : Option String :=
  (to_numeric age).bind (pd_cut age_bins age_labels)

/-- The six age buckets as the spec words them: half-open on the lower
bound, inclusive on the upper bound, undefined outside (17, 120]. -/
def Age_group_spec (a : Int) : Option String :=
  if 17 < a ∧ a ≤ 24 then some "18-24"
  else if 24 < a ∧ a ≤ 34 then some "25-34"
  else if 34 < a ∧ a ≤ 44 then some "35-44"
  else if 44 < a ∧ a ≤ 54 then some "45-54"
  else if 54 < a ∧ a ≤ 64 then some "55-64"
  else if 64 < a ∧ a ≤ 120 then some "65+"
  else none

/-- `LITERACY_COLS = ["Q_Interest", "Q_Inflation", "Q_Bonds", "Q_Risk", "Q_Mortgage"]` -/
def LITERACY_COLS : List String :=
  ["Q_Interest", "Q_Inflation", "Q_Bonds", "Q_Risk", "Q_Mortgage"]

/-- The `correct_answers` dict of `analysis.py`. -/
def correct_answers : List (String × String) :=
  [("Q_Interest", "More than $102"), ("Q_Inflation", "More than today"),
   ("Q_Bonds", "Fall"), ("Q_Risk", "True"), ("Q_Mortgage", "False")]

/-- `correct_answers[col]` (defined for every literacy column). -/
def answerFor (c : String) : String :=
  ((correct_answers.find? (fun p => decide (p.1 = c))).map (fun p => p.2)).getD ""

/-- A respondent row of the cleaned dataset: the cell held by each column. -/
abbrev Row := String → Cell

/-- `(df[col] == correct_answers[col]).astype(int)` on one row: 1 exactly
when the cell is string-equal to the answer key, else 0 (also 0 for a
missing cell, since `NaN == label` is False in pandas). -/
def q_score (row : Row) (c : String) : Nat :=
  if row c = Cell.strv (answerFor c) then 1 else 0

/-- `df["literacy_score"]`: the sum of the five per-question indicators. -/
def literacy_score (row : Row) : Nat :=
  (LITERACY_COLS.map (q_score row)).sum

/-- A respondent as seen by `summarize`: the grouping key (missing when the
group column is NaN for that row) and the literacy score. -/
structure Resp where
  key : Option String
  score : ℚ
deriving DecidableEq

/-- The rows of one group: `df.groupby` collects the rows whose key equals
the group's (NaN keys belong to no group). -/
def group_rows (df : List Resp) (g : String) : List Resp :=
  df.filter (fun r => decide (r.key = some g))

/-- The group keys produced by `df.groupby(group_cols)`: the distinct
non-missing key values, in order of first appearance. -/
def group_keys (df : List Resp) : List String :=
  (df.filterMap Resp.key).dedup

/-- The literacy scores of one group. -/
def group_scores (df : List Resp) (g : String) : List ℚ :=
  (group_rows df g).map Resp.score

/-- `agg("count")`: the group's row count (the score is never missing). -/
def group_n (df : List Resp) (g : String) : Nat :=
  (group_rows df g).length

/-- `agg("mean")`: the group's mean literacy score. -/
def group_mean (df : List Resp) (g : String) : ℚ :=
  (group_scores df g).sum / (group_n df g : ℚ)

/-- The square of `agg("std")` (the sample standard deviation, divisor
n−1): pandas yields NaN (here `none`) for a singleton group, where the
divisor n−1 vanishes. Squares keep the development in ℚ; std itself is
the square root of this value. -/
def group_std_sq (df : List Resp) (g : String) : Option ℚ :=
  if 2 ≤ group_n df g then
    some (((group_scores df g).map (fun x => (x - group_mean df g) ^ 2)).sum
            / ((group_n df g : ℚ) - 1))
  else none

/-- The square of `g["se"] = g["std"] / np.sqrt(g["n"].clip(lower=1))`:
NaN (here `none`) exactly when std is NaN. -/
def group_se_sq (df : List Resp) (g : String) : Option ℚ :=
  (group_std_sq df g).map (fun s => s / ((max (group_n df g) 1 : Nat) : ℚ))

/-- One row of a summary table: group key, n, mean, and the squares of
std and se (`none` encoding pandas NaN). -/
structure SummaryRow where
  key : String
  n : Nat
  mean : ℚ
  std_sq : Option ℚ
  se_sq : Option ℚ
deriving DecidableEq

/-- `summarize(group_cols)` of `analysis.py`: one summary row per group. -/
def summarize (df : List Resp) : List SummaryRow :=
  (group_keys df).map fun g =>
    ⟨g, group_n df g, group_mean df g, group_std_sq df g, group_se_sq df g⟩

/-- Column-oriented view of a dataset for the pruning step. -/
abbrev ColTable := List (String × List Cell)

/-- `df.dropna(axis=1, how="all")`: keep exactly the columns having at
least one non-missing (non-NaN) cell. -/
def dropna_columns (df : ColTable) : ColTable :=
  df.filter (fun col => col.2.any (fun v => decide (v ≠ Cell.na)))

/-- A cell that is both present and a non-empty value (the empty string —
as produced by e.g. the 1–7 agreement map — does not count). -/
def cell_has_content : Cell → Bool
  | Cell.na => false
  | Cell.strv s => decide (s ≠ "")
  | Cell.intv _ => true

/-- An observable step of the Aggregator/Reporter run: a printed summary
table, a saved chart file, or a printed diagnostic message. -/
inductive Artifact where
  | table : String → Artifact
  | chart : String → Artifact
  | message : String → Artifact
deriving DecidableEq, Repr

/-- The outcome of a run of `analysis.py`: the artifacts produced in
order, and the exception (if any) that aborted the script. -/
structure RunResult where
  produced : List Artifact
  error : Option String
deriving DecidableEq, Repr

/-- The control flow of `analysis.py` as a function of which columns the
cleaned dataset has. Literacy scoring indexes the five question columns
unconditionally; Age_group is created from Age (or Age_Category_Code) when
present; the age/gender summaries index their columns unconditionally; the
region and division table+bar-chart sections are guarded by
`if col in df.columns` with an explanatory print in the else branch; the
closing box-plot sections index Census_Region / Census_Division
unconditionally (seaborn raises when the column is absent). -/
def analysisRun (cols : List String) : RunResult :=
  if ¬ (∀ c ∈ LITERACY_COLS, c ∈ cols) then
    ⟨[], some "KeyError: literacy question column"⟩
  else
    let cols1 := if "Age" ∈ cols then cols ++ ["Age_numeric", "Age_group"]
                 else if "Age_Category_Code" ∈ cols then cols ++ ["Age_group"]
                 else cols
    if "Age_group" ∉ cols1 then ⟨[], some "KeyError: Age_group"⟩
    else if "Gender" ∉ cols1 then ⟨[], some "KeyError: Gender"⟩
    else
      let base := [Artifact.table "age", Artifact.table "gender",
                   Artifact.table "age_gender",
                   Artifact.chart "literacy_by_age.png",
                   Artifact.chart "literacy_by_gender.png",
                   Artifact.chart "literacy_by_age_gender.png"]
      let regionPart := if "Census_Region" ∈ cols1 then
            [Artifact.table "region", Artifact.chart "literacy_by_region.png"]
          else [Artifact.message "Column 'Census_Region' not found in dataset."]
      let divisionPart := if "Census_Division" ∈ cols1 then
            [Artifact.table "division", Artifact.chart "literacy_by_division.png"]
          else [Artifact.message "Column 'Census_Division' not found in dataset."]
      if "Census_Region" ∉ cols1 then
        ⟨base ++ regionPart ++ divisionPart,
         some "ValueError: boxplot column Census_Region"⟩
      else if "Census_Division" ∉ cols1 then
        ⟨base ++ regionPart ++ divisionPart ++
           [Artifact.chart "literacy_boxplot_region.png"],
         some "ValueError: boxplot column Census_Division"⟩
      else
        ⟨base ++ regionPart ++ divisionPart ++
           [Artifact.chart "literacy_boxplot_region.png",
            Artifact.chart "literacy_boxplot_division.png"], none⟩

/-- A cleaned dataset that has everything except `Census_Region`. -/
def colsNoRegion : List String :=
  LITERACY_COLS ++ ["Age", "Gender", "Census_Division"]

/-- A small concrete dataset for evaluating `summarize`: group "A" holds
scores 3 and 5, group "B" holds score 0, and one row has a missing key. -/
def dfW : List Resp :=
  [⟨some "A", 3⟩, ⟨some "A", 5⟩, ⟨none, 2⟩, ⟨some "B", 0⟩]

/-- A concrete dataset whose group "A" is a singleton. -/
def dfSingle : List Resp :=
  [⟨some "A", 4⟩, ⟨none, 1⟩]

/-!  ## Theorems  -/

lemma find?_intv_part (m : CodeMap) (n : Int) :
    (m.map (fun p => (Cell.intv p.1, p.2))).find? (fun p => decide (p.1 = Cell.intv n))
      = (m.find? (fun p => decide (p.1 = n))).map (fun p => (Cell.intv p.1, p.2)) := by
  induction m with
  | nil => rfl
  | cons q m ih =>
      by_cases h : q.1 = n
      · simp [List.find?, h]
      · have h' : ¬ (Cell.intv q.1 = Cell.intv n) := by
          intro hc; exact h (Cell.intv.inj hc)
        simp [List.find?, h, h', ih]

lemma find?_strv_part (m : CodeMap) (s : String) :
    (m.map (fun p => (Cell.strv (toString p.1), p.2))).find?
        (fun p => decide (p.1 = Cell.strv s))
      = (m.find? (fun p => decide (toString p.1 = s))).map
          (fun p => (Cell.strv (toString p.1), p.2)) := by
  induction m with
  | nil => rfl
  | cons q m ih =>
      by_cases h : toString q.1 = s
      · simp [List.find?, h]
      · have h' : ¬ (Cell.strv (toString q.1) = Cell.strv s) := by
          intro hc; exact h (Cell.strv.inj hc)
        simp [List.find?, h, h', ih]

lemma find?_intv_in_strv_part (m : CodeMap) (n : Int) :
    (m.map (fun p => (Cell.strv (toString p.1), p.2))).find?
        (fun p => decide (p.1 = Cell.intv n)) = none := by
  rw [List.find?_eq_none]
  intro x hx
  rcases List.mem_map.mp hx with ⟨p, _, rfl⟩
  simp

lemma find?_strv_in_intv_part (m : CodeMap) (s : String) :
    (m.map (fun p => (Cell.intv p.1, p.2))).find?
        (fun p => decide (p.1 = Cell.strv s)) = none := by
  rw [List.find?_eq_none]
  intro x hx
  rcases List.mem_map.mp hx with ⟨p, _, rfl⟩
  simp

lemma find?_na_mixed (m : CodeMap) :
    (mixed m).find? (fun p => decide (p.1 = Cell.na)) = none := by
  rw [List.find?_eq_none]
  intro x hx
  rcases List.mem_append.mp hx with h | h <;>
    rcases List.mem_map.mp h with ⟨p, _, rfl⟩ <;> simp

lemma dictLookup_mixed_intv (m : CodeMap) (n : Int) :
    dictLookup (mixed m) (Cell.intv n) = lookupCode m n := by
  unfold dictLookup mixed lookupCode
  rw [List.find?_append, find?_intv_part, find?_intv_in_strv_part]
  cases m.find? (fun p => decide (p.1 = n)) <;> rfl

lemma dictLookup_mixed_strv (m : CodeMap) (s : String) :
    dictLookup (mixed m) (Cell.strv s) = lookupStr m s := by
  unfold dictLookup mixed lookupStr
  rw [List.find?_append, find?_strv_in_intv_part, find?_strv_part]
  cases m.find? (fun p => decide (toString p.1 = s)) <;> rfl

/-- Characterization of `apply_map_safe` on one cell: an integer cell is
replaced by the label attached to its integer key, a string cell by the label
attached to the key whose decimal form it equals, anything unmapped (and `NaN`)
is returned untouched. -/
lemma apply_map_safe_cases (m : CodeMap) (v : Cell) :
    apply_map_safe m v =
      match v with
      | Cell.intv n => (lookupCode m n).elim (Cell.intv n) Cell.strv
      | Cell.strv s => (lookupStr m s).elim (Cell.strv s) Cell.strv
      | Cell.na => Cell.na := by
  cases v with
  | intv n =>
      unfold apply_map_safe seriesMap
      rw [dictLookup_mixed_intv]
      cases h : lookupCode m n <;> simp [fillna, h]
  | strv s =>
      unfold apply_map_safe seriesMap
      rw [dictLookup_mixed_strv]
      cases h : lookupStr m s <;> simp [fillna, h]
  | na =>
      unfold apply_map_safe seriesMap dictLookup
      rw [find?_na_mixed]
      rfl

/-- C5: For every mapped column and every cell value v, the safe mapping lookup
returns the label for v if either v itself or its string form is a key of the
governing code map (integer cells match integer keys, string cells match the
keys' decimal-string forms), and returns v unchanged otherwise; an unmapped
value is never dropped and never becomes a missing marker. -/
theorem apply_map_safe_lookup_or_unchanged (m : CodeMap) (v : Cell) :
    apply_map_safe m v =
      match v with
      | Cell.intv n => (lookupCode m n).elim (Cell.intv n) Cell.strv
      | Cell.strv s => (lookupStr m s).elim (Cell.strv s) Cell.strv
      | Cell.na => Cell.na :=
  apply_map_safe_cases m v

/-- C9: the safe mapping preserves missingness exactly — a cell is missing
after `apply_map_safe` if and only if it was missing before. -/
theorem apply_map_safe_preserves_missingness (m : CodeMap) (v : Cell) :
    apply_map_safe m v = Cell.na ↔ v = Cell.na := by
  rw [apply_map_safe_cases]
  cases v with
  | intv n => cases h : lookupCode m n <;> simp [h]
  | strv s => cases h : lookupStr m s <;> simp [h]
  | na => simp

/-- C2 counterexample: the Gender column A3 is governed by `COLUMN_MAPS`,
yet its map has no entries for 98/99, so the Recoder leaves those raw
numeric codes in place instead of recoding them to a sentinel label. -/
theorem gender_sentinel_codes_left_numeric :
    COLUMN_MAPS.find? (fun p => decide (p.1 = "A3")) = some ("A3", A3_gender)
    ∧ apply_map_safe A3_gender (Cell.intv 98) = Cell.intv 98
    ∧ apply_map_safe A3_gender (Cell.intv 99) = Cell.intv 99 := by
  refine ⟨by decide, by decide, by decide⟩

/-- C2 amended: in every map of the exact-column and prefix registries, a
raw code 98 or 99 that has an entry recodes to "Don't know"/"Prefer not to
say" and never to a substantive label, and one without an entry passes
through unchanged; the maps missing such entries are exactly: A3 (both 98
and 99 absent) and A5, A6, A7, A11, AM21/AM22, A9 (98 absent). The declared
alternate sentinels -98 and -99 (column E5) and 999 (column A3a) also recode
to sentinel labels. -/
theorem sentinel_codes_recode_or_pass_through :
    (COLUMN_MAPS.all fun p => sentinelOk p.2) = true
    ∧ (PREFIX_MAPS.all fun p => sentinelOk p.2) = true
    ∧ lookupCode A3_gender 98 = none ∧ lookupCode A3_gender 99 = none
    ∧ lookupCode A5_edu 98 = none ∧ lookupCode A6_marital 98 = none
    ∧ lookupCode A7_living 98 = none ∧ lookupCode A11_children 98 = none
    ∧ lookupCode AM21_22_service 98 = none ∧ lookupCode A9_work 98 = none
    ∧ (COLUMN_MAPS.all fun p =>
        decide (p.1 = "A3") || (lookupCode p.2 99).isSome) = true
    ∧ e5Replace (Cell.intv (-98)) = Cell.strv "Don't know"
    ∧ e5Replace (Cell.intv (-99)) = Cell.strv "Prefer not to say"
    ∧ a3aReplace (Cell.intv 999) = Cell.strv "Prefer not to say" := by
  repeat' constructor

/-- C4: Age_group is a pure function of the numeric age, bucketing into the
six half-open intervals (17,24], (24,34], (34,44], (44,54], (54,64], (64,120]
labelled "18-24" … "65+"; a boundary age falls in the lower bucket (24 →
"18-24", 25 → "25-34"), and a non-numeric or out-of-range age yields the
missing bucket. -/
theorem Age_group_buckets (v : Cell) :
    Age_group v = (to_numeric v).bind Age_group_spec
    ∧ Age_group (Cell.intv 24) = some "18-24"
    ∧ Age_group (Cell.intv 25) = some "25-34"
    ∧ Age_group (Cell.intv 17) = none
    ∧ Age_group (Cell.intv 121) = none
    ∧ Age_group Cell.na = none := by
  refine ⟨?_, by decide, by decide, by decide, by decide, rfl⟩
  cases h : to_numeric v with
  | none => simp [Age_group, h]
  | some a =>
      simp only [Age_group, h, Option.bind_some]
      simp only [pd_cut, age_bins, age_labels, cutScan, Age_group_spec]

lemma sum_indicator_eq_countP (row : Row) (cols : List String) :
    (cols.map (q_score row)).sum
      = cols.countP (fun c => decide (row c = Cell.strv (answerFor c))) := by
  induction cols with
  | nil => rfl
  | cons c cols ih =>
      by_cases h : row c = Cell.strv (answerFor c) <;>
        simp [q_score, List.countP_cons, h, ih, Nat.add_comm]

/-- C1: each respondent's literacy_score is the count of the five fixed
question columns whose cell is exactly string-equal to that question's
answer key, hence an integer in {0,…,5}; a cell not equal to the key
(including "Don't know" or a missing cell) contributes 0, and the score is
itself never missing (it is a total natural-valued function of the row). -/
theorem literacy_score_counts_exact_matches (row : Row) :
    literacy_score row
        = LITERACY_COLS.countP (fun c => decide (row c = Cell.strv (answerFor c)))
    ∧ literacy_score row ≤ 5 := by
  have h := sum_indicator_eq_countP row LITERACY_COLS
  refine ⟨h, ?_⟩
  calc literacy_score row
      = LITERACY_COLS.countP (fun c => decide (row c = Cell.strv (answerFor c))) := h
    _ ≤ LITERACY_COLS.length := List.countP_le_length _
    _ = 5 := rfl

lemma group_n_eq_countP (df : List Resp) (g : String) :
    group_n df g = (df.filterMap Resp.key).countP (fun x => decide (x = g)) := by
  induction df with
  | nil => rfl
  | cons r df ih =>
      simp only [group_n, group_rows] at ih ⊢
      cases hk : r.key with
      | none =>
          rw [List.filterMap_cons, hk, List.filter_cons]
          have hp : (decide (r.key = some g)) = false := by simp [hk]
          rw [hp]
          simpa using ih
      | some a =>
          rw [List.filterMap_cons, hk, List.countP_cons, List.filter_cons]
          by_cases hag : a = g
          · subst hag
            have hp : (decide (r.key = some a)) = true := by simp [hk]
            rw [hp]
            simp [ih]
          · have hp : (decide (r.key = some g)) = false := by simp [hk, hag]
            rw [hp]
            simp [ih, hag]

lemma length_filter_isSome (df : List Resp) :
    (df.filter (fun r => r.key.isSome)).length = (df.filterMap Resp.key).length := by
  induction df with
  | nil => rfl
  | cons r df ih =>
      cases hk : r.key <;>
        simp [List.filter_cons, List.filterMap_cons, hk, ih]

lemma sum_map_add_nat {α : Type} (l : List α) (f g : α → Nat) :
    (l.map (fun x => f x + g x)).sum = (l.map f).sum + (l.map g).sum := by
  induction l with
  | nil => rfl
  | cons a l ih => simp [ih]; omega

lemma sum_map_ite_zero (a : String) (l : List String) (h : a ∉ l) :
    (l.map (fun g => if a = g then (1 : Nat) else 0)).sum = 0 := by
  induction l with
  | nil => rfl
  | cons b l ih =>
      have hab : a ≠ b := fun hc => h (hc ▸ List.mem_cons_self b l)
      have hnl : a ∉ l := fun hc => h (List.mem_cons_of_mem b hc)
      simp [hab, ih hnl]

lemma sum_map_ite_one (a : String) (l : List String) (hnd : l.Nodup) (ha : a ∈ l) :
    (l.map (fun g => if a = g then (1 : Nat) else 0)).sum = 1 := by
  induction l with
  | nil => exact absurd ha (List.not_mem_nil a)
  | cons b l ih =>
      rcases List.nodup_cons.mp hnd with ⟨hbl, hndl⟩
      by_cases hab : a = b
      · subst hab
        simp [sum_map_ite_zero a l hbl]
      · have hal : a ∈ l := by
          rcases List.mem_cons.mp ha with h | h
          · exact absurd h hab
          · exact h
        simp [hab, ih hndl hal]

lemma sum_countP_dedup (l : List String) :
    (l.dedup.map (fun g => l.countP (fun x => decide (x = g)))).sum = l.length := by
  induction l with
  | nil => rfl
  | cons a l ih =>
      have hstep : ∀ g : String,
          (a :: l).countP (fun x => decide (x = g))
            = l.countP (fun x => decide (x = g)) + (if a = g then 1 else 0) := by
        intro g
        by_cases hag : a = g <;> simp [List.countP_cons, hag]
      by_cases h : a ∈ l
      · rw [List.dedup_cons_of_mem h]
        calc (l.dedup.map (fun g => (a :: l).countP (fun x => decide (x = g)))).sum
            = (l.dedup.map (fun g =>
                l.countP (fun x => decide (x = g)) + (if a = g then 1 else 0))).sum := by
              simp only [hstep]
          _ = (l.dedup.map (fun g => l.countP (fun x => decide (x = g)))).sum
                + (l.dedup.map (fun g => if a = g then (1 : Nat) else 0)).sum :=
              sum_map_add_nat _ _ _
          _ = l.length + 1 := by
              rw [ih, sum_map_ite_one a l.dedup l.nodup_dedup (List.mem_dedup.mpr h)]
          _ = (a :: l).length := by simp [Nat.add_comm]
      · rw [List.dedup_cons_of_not_mem h]
        have hcount : l.countP (fun x => decide (x = a)) = 0 := by
          rw [List.countP_eq_zero]
          intro x hx
          simp only [decide_eq_true_eq]
          intro hc; exact h (hc ▸ hx)
        have hnd : a ∉ l.dedup := fun hc => h (List.mem_dedup.mp hc)
        calc ((a :: l.dedup).map (fun g => (a :: l).countP (fun x => decide (x = g)))).sum
            = (a :: l).countP (fun x => decide (x = a))
                + (l.dedup.map (fun g => (a :: l).countP (fun x => decide (x = g)))).sum := by
              simp
          _ = 1 + ((l.dedup.map (fun g =>
                l.countP (fun x => decide (x = g)) + (if a = g then 1 else 0))).sum) := by
              rw [hstep a, hcount]
              simp only [hstep]
              simp
          _ = 1 + (l.length + 0) := by
              rw [sum_map_add_nat, ih, sum_map_ite_zero a l.dedup hnd]
          _ = (a :: l).length := by simp [Nat.add_comm]

lemma group_n_pos (df : List Resp) (g : String) (hg : g ∈ group_keys df) :
    0 < group_n df g := by
  rcases List.mem_filterMap.mp (List.mem_dedup.mp hg) with ⟨r, hr, hk⟩
  have : r ∈ group_rows df g := by
    rw [group_rows, List.mem_filter]
    exact ⟨hr, by simp [hk]⟩
  exact List.length_pos.mpr (List.ne_nil_of_mem this)

lemma mean_bounds (df : List Resp) (g : String)
    (hb : ∀ r ∈ df, 0 ≤ r.score ∧ r.score ≤ 5) (hg : g ∈ group_keys df) :
    0 ≤ group_mean df g ∧ group_mean df g ≤ 5 := by
  have hmem : ∀ x ∈ group_scores df g, 0 ≤ x ∧ x ≤ 5 := by
    intro x hx
    rcases List.mem_map.mp hx with ⟨r, hr, rfl⟩
    exact hb r (List.mem_of_mem_filter hr)
  have hn : 0 < group_n df g := group_n_pos df g hg
  have hnq : (0 : ℚ) < (group_n df g : ℚ) := by exact_mod_cast hn
  have hsum0 : 0 ≤ (group_scores df g).sum :=
    List.sum_nonneg (fun x hx => (hmem x hx).1)
  have hsum5 : (group_scores df g).sum ≤ (group_n df g : ℚ) * 5 := by
    have h1 : (group_scores df g).sum ≤ (group_scores df g).length • (5 : ℚ) :=
      List.sum_le_card_nsmul _ _ (fun x hx => (hmem x hx).2)
    have h2 : (group_scores df g).length = group_n df g := by
      simp [group_scores, group_n]
    rw [h2, nsmul_eq_mul] at h1
    exact h1
  constructor
  · exact div_nonneg hsum0 (le_of_lt hnq)
  · rw [group_mean, div_le_iff₀ hnq]
    calc (group_scores df g).sum ≤ (group_n df g : ℚ) * 5 := hsum5
      _ = 5 * (group_n df g : ℚ) := by ring

/-- C6: for every grouping, each summary row carries n = the group's row
count, mean = (sum of scores)/n, the sample variance with divisor n−1
(as std², `none` when n < 2), and se² = std²/max(n,1); the per-group n sum
over all groups equals the number of respondents with a non-missing group
key, and every (necessarily non-empty) group's mean lies in [0, 5]. -/
theorem summarize_spec (df : List Resp)
    (hb : ∀ r ∈ df, 0 ≤ r.score ∧ r.score ≤ 5) :
    ((summarize df).map SummaryRow.n).sum
        = (df.filter (fun r => r.key.isSome)).length
    ∧ ∀ row ∈ summarize df,
        row.n = (group_rows df row.key).length
        ∧ 0 < row.n
        ∧ row.mean = ((group_rows df row.key).map Resp.score).sum / (row.n : ℚ)
        ∧ row.std_sq = (if 2 ≤ row.n then
            some ((((group_rows df row.key).map Resp.score).map
                (fun x => (x - row.mean) ^ 2)).sum / ((row.n : ℚ) - 1))
          else none)
        ∧ row.se_sq = row.std_sq.map (fun s => s / ((max row.n 1 : Nat) : ℚ))
        ∧ 0 ≤ row.mean ∧ row.mean ≤ 5 := by
  constructor
  · have h1 : (summarize df).map SummaryRow.n
        = (group_keys df).map (fun g => group_n df g) := by
      simp [summarize, List.map_map]
    rw [h1]
    simp only [group_n_eq_countP]
    rw [length_filter_isSome]
    exact sum_countP_dedup (df.filterMap Resp.key)
  · intro row hrow
    rcases List.mem_map.mp hrow with ⟨g, hg, rfl⟩
    refine ⟨rfl, group_n_pos df g hg, rfl, rfl, rfl, mean_bounds df g hb hg⟩

/-- Witness for C6: `summarize_spec` evaluated on the concrete dataset
`dfW` (groups "A" = {3, 5}, "B" = {0}, one missing-key row). -/
theorem summarize_spec_witness :
    (∀ r ∈ dfW, 0 ≤ r.score ∧ r.score ≤ 5)
    ∧ (((summarize dfW).map SummaryRow.n).sum
        = (dfW.filter (fun r => r.key.isSome)).length
      ∧ ∀ row ∈ summarize dfW,
          row.n = (group_rows dfW row.key).length
          ∧ 0 < row.n
          ∧ row.mean = ((group_rows dfW row.key).map Resp.score).sum / (row.n : ℚ)
          ∧ row.std_sq = (if 2 ≤ row.n then
              some ((((group_rows dfW row.key).map Resp.score).map
                  (fun x => (x - row.mean) ^ 2)).sum / ((row.n : ℚ) - 1))
            else none)
          ∧ row.se_sq = row.std_sq.map (fun s => s / ((max row.n 1 : Nat) : ℚ))
          ∧ 0 ≤ row.mean ∧ row.mean ≤ 5) :=
  ⟨by decide, summarize_spec dfW (by decide)⟩

/-- C10: a group with exactly one respondent summarizes to n = 1, mean =
that respondent's score, and missing (NaN) std and se — the `clip(lower=1)`
guard never manufactures a finite standard error for a singleton group,
because the sample standard deviation is undefined (NaN) at n = 1. -/
theorem summarize_singleton_group (df : List Resp) (g : String) (r : Resp)
    (h : group_rows df g = [r]) :
    group_n df g = 1
    ∧ group_mean df g = r.score
    ∧ group_std_sq df g = none
    ∧ group_se_sq df g = none
    ∧ SummaryRow.mk g 1 r.score none none ∈ summarize df := by
  have hn : group_n df g = 1 := by rw [group_n, h]; rfl
  have hmean : group_mean df g = r.score := by
    rw [group_mean, group_scores, h, hn]
    simp
  have hstd : group_std_sq df g = none := by
    rw [group_std_sq, hn]
    norm_num
  have hse : group_se_sq df g = none := by
    rw [group_se_sq, hstd]
    rfl
  have hrmem : r ∈ group_rows df g := by rw [h]; exact List.mem_singleton.mpr rfl
  have hrk : r.key = some g := by
    have := (List.mem_filter.mp (by rw [group_rows] at hrmem; exact hrmem)).2
    simpa using this
  have hgk : g ∈ group_keys df := by
    apply List.mem_dedup.mpr
    exact List.mem_filterMap.mpr ⟨r, List.mem_of_mem_filter hrmem, hrk⟩
  refine ⟨hn, hmean, hstd, hse, ?_⟩
  have : SummaryRow.mk g (group_n df g) (group_mean df g)
      (group_std_sq df g) (group_se_sq df g) ∈ summarize df :=
    List.mem_map.mpr ⟨g, hgk, rfl⟩
  rw [hn, hmean, hstd, hse] at this
  exact this

/-- Witness for C10: `summarize_singleton_group` at the concrete dataset
`dfSingle`, whose group "A" holds exactly the one respondent with score 4. -/
theorem summarize_singleton_group_witness :
    group_rows dfSingle "A" = [Resp.mk (some "A") 4]
    ∧ (group_n dfSingle "A" = 1
      ∧ group_mean dfSingle "A" = (Resp.mk (some "A") 4).score
      ∧ group_std_sq dfSingle "A" = none
      ∧ group_se_sq dfSingle "A" = none
      ∧ SummaryRow.mk "A" 1 (Resp.mk (some "A") 4).score none none ∈ summarize dfSingle) :=
  ⟨by decide, summarize_singleton_group dfSingle "A" (Resp.mk (some "A") 4) (by decide)⟩

lemma isPrefixOf_total (l p q : List Char)
    (hp : p.isPrefixOf l = true) (hq : q.isPrefixOf l = true) :
    p.isPrefixOf q = true ∨ q.isPrefixOf p = true := by
  induction l generalizing p q with
  | nil =>
      cases p with
      | nil => left; exact List.isPrefixOf_nil_left
      | cons a as => simp [List.isPrefixOf] at hp
  | cons c cs ih =>
      cases p with
      | nil => left; exact List.isPrefixOf_nil_left
      | cons a as =>
          cases q with
          | nil => right; exact List.isPrefixOf_nil_left
          | cons b bs =>
              simp only [List.isPrefixOf, Bool.and_eq_true, beq_iff_eq] at hp hq
              obtain ⟨hac, has⟩ := hp
              obtain ⟨hbc, hbs⟩ := hq
              subst hac
              subst hbc
              rcases ih as bs has hbs with h | h
              · left; simp [List.isPrefixOf, h]
              · right; simp [List.isPrefixOf, h]

lemma foldl_no_match (col : String) (l : List (String × CodeMap)) (v : Cell)
    (h : ∀ pm ∈ l, strStarts col pm.1 = false) :
    l.foldl (foldPrefixStep col) v = v := by
  induction l generalizing v with
  | nil => rfl
  | cons pm l ih =>
      rw [List.foldl_cons]
      have hpm := h pm (List.mem_cons_self pm l)
      have hv : foldPrefixStep col v pm = v := by simp [foldPrefixStep, hpm]
      rw [hv]
      exact ih v (fun qm hq => h qm (List.mem_cons_of_mem pm hq))

lemma apply_map_safe_idem (m : CodeMap) (hm : mapIdem m = true) (v : Cell) :
    apply_map_safe m (apply_map_safe m v) = apply_map_safe m v := by
  have hlbl : ∀ p ∈ m, apply_map_safe m (Cell.strv p.2) = Cell.strv p.2 := by
    intro p hp
    exact of_decide_eq_true (List.all_eq_true.mp hm p hp)
  cases v with
  | na =>
      have e : apply_map_safe m Cell.na = Cell.na := by
        rw [apply_map_safe_cases]
      rw [e]
      exact e
  | intv n =>
      cases hc : lookupCode m n with
      | none =>
          have e : apply_map_safe m (Cell.intv n) = Cell.intv n := by
            rw [apply_map_safe_cases]; simp [hc]
          rw [e]
          exact e
      | some lbl =>
          have e : apply_map_safe m (Cell.intv n) = Cell.strv lbl := by
            rw [apply_map_safe_cases]; simp [hc]
          rw [e]
          obtain ⟨p, hfind, hp2⟩ :
              ∃ p, m.find? (fun p => decide (p.1 = n)) = some p ∧ p.2 = lbl := by
            unfold lookupCode at hc
            cases hfnd : m.find? (fun p => decide (p.1 = n)) with
            | none => rw [hfnd] at hc; exact Option.noConfusion hc
            | some p =>
                rw [hfnd] at hc
                simp at hc
                exact ⟨p, rfl, hc⟩
          rw [← hp2]
          exact hlbl p (List.mem_of_find?_eq_some hfind)
  | strv s =>
      cases hc : lookupStr m s with
      | none =>
          have e : apply_map_safe m (Cell.strv s) = Cell.strv s := by
            rw [apply_map_safe_cases]; simp [hc]
          rw [e]
          exact e
      | some lbl =>
          have e : apply_map_safe m (Cell.strv s) = Cell.strv lbl := by
            rw [apply_map_safe_cases]; simp [hc]
          rw [e]
          obtain ⟨p, hfind, hp2⟩ :
              ∃ p, m.find? (fun p => decide (toString p.1 = s)) = some p ∧ p.2 = lbl := by
            unfold lookupStr at hc
            cases hfnd : m.find? (fun p => decide (toString p.1 = s)) with
            | none => rw [hfnd] at hc; exact Option.noConfusion hc
            | some p =>
                rw [hfnd] at hc
                simp at hc
                exact ⟨p, rfl, hc⟩
          rw [← hp2]
          exact hlbl p (List.mem_of_find?_eq_some hfind)

lemma e5Replace_idem (v : Cell) : e5Replace (e5Replace v) = e5Replace v := by
  by_cases h1 : v = Cell.intv (-98)
  · subst h1; rfl
  by_cases h2 : v = Cell.intv (-99)
  · subst h2; rfl
  by_cases h3 : v = Cell.strv "-98"
  · subst h3; rfl
  by_cases h4 : v = Cell.strv "-99"
  · subst h4; rfl
  have e : e5Replace v = v := by
    unfold e5Replace
    rw [if_neg h1, if_neg h2, if_neg h3, if_neg h4]
  rw [e]
  exact e

lemma a3aReplace_idem (v : Cell) : a3aReplace (a3aReplace v) = a3aReplace v := by
  by_cases h1 : v = Cell.intv 999
  · subst h1; rfl
  by_cases h2 : v = Cell.strv "999"
  · subst h2; rfl
  have e : a3aReplace v = v := by
    unfold a3aReplace
    rw [if_neg h1, if_neg h2]
  rw [e]
  exact e

lemma exactStep_of_find_some {col : String} {pm : String × CodeMap}
    (hf : COLUMN_MAPS.find? (fun p => decide (p.1 = col)) = some pm) (v : Cell) :
    exactStep col v = apply_map_safe pm.2 v := by
  unfold exactStep
  rw [hf]

lemma exactStep_of_find_none {col : String}
    (hf : COLUMN_MAPS.find? (fun p => decide (p.1 = col)) = none) (v : Cell) :
    exactStep col v = v := by
  unfold exactStep
  rw [hf]

lemma prefixStep_of_no_match {col : String}
    (h : ∀ qm ∈ PREFIX_MAPS, strStarts col qm.1 = false) (v : Cell) :
    prefixStep col v = v :=
  foldl_no_match col PREFIX_MAPS v h

lemma e5Step_of_ne {col : String} (h : col ≠ "E5") (v : Cell) : e5Step col v = v := by
  unfold e5Step
  rw [if_neg h]

lemma a3aStep_of_ne {col : String} (h : col ≠ "A3a") (v : Cell) : a3aStep col v = v := by
  unfold a3aStep
  rw [if_neg h]

lemma foldl_prefix_idem (col : String) (l : List (String × CodeMap))
    (hidem : ∀ pm ∈ l, mapIdem pm.2 = true)
    (hpair : l.Pairwise (fun a b =>
      a.1.data.isPrefixOf b.1.data = false ∧ b.1.data.isPrefixOf a.1.data = false))
    (v : Cell) :
    l.foldl (foldPrefixStep col) (l.foldl (foldPrefixStep col) v)
      = l.foldl (foldPrefixStep col) v := by
  induction l generalizing v with
  | nil => rfl
  | cons pm l ih =>
      rcases List.pairwise_cons.mp hpair with ⟨hhead, htail⟩
      cases h : strStarts col pm.1 with
      | true =>
          have hrest : ∀ qm ∈ l, strStarts col qm.1 = false := by
            intro qm hq
            cases hb : strStarts col qm.1 with
            | false => rfl
            | true =>
                rcases isPrefixOf_total col.data pm.1.data qm.1.data h hb with hpq | hqp
                · rw [(hhead qm hq).1] at hpq
                  exact absurd hpq (by simp)
                · rw [(hhead qm hq).2] at hqp
                  exact absurd hqp (by simp)
          have e1 : ∀ x, (pm :: l).foldl (foldPrefixStep col) x = apply_map_safe pm.2 x := by
            intro x
            rw [List.foldl_cons]
            have hx : foldPrefixStep col x pm = apply_map_safe pm.2 x := by
              simp [foldPrefixStep, h]
            rw [hx]
            exact foldl_no_match col l _ hrest
          rw [e1 v]
          rw [e1 (apply_map_safe pm.2 v)]
          exact apply_map_safe_idem pm.2 (hidem pm (List.mem_cons_self pm l)) v
      | false =>
          have hstep : ∀ x, foldPrefixStep col x pm = x := by
            intro x; simp [foldPrefixStep, h]
          simp only [List.foldl_cons, hstep]
          exact ih (fun qm hq => hidem qm (List.mem_cons_of_mem pm hq)) htail v

/-- C7: the Recoder's mapping pass (exact-column maps, then prefix maps,
then the E5/A3a special cases) is idempotent on every cell of every
column: applying it to its own output changes nothing, because the safe
lookup leaves unmapped values unchanged and every label that collides with
a map key (such as "1"…"10" in the 1–10 scale maps) maps back to itself. -/
theorem recode_pass_idempotent (col : String) (v : Cell) :
    recodeCell col (recodeCell col v) = recodeCell col v := by
  cases hf : COLUMN_MAPS.find? (fun p => decide (p.1 = col)) with
  | some pm =>
      have hcol' := List.find?_some hf
      have hcol : pm.1 = col := by simpa using hcol'
      have hmem : pm ∈ COLUMN_MAPS := List.mem_of_find?_eq_some hf
      have hall : ∀ qm ∈ COLUMN_MAPS, mapIdem qm.2 = true
          ∧ (∀ rm ∈ PREFIX_MAPS, strStarts qm.1 rm.1 = false)
          ∧ qm.1 ≠ "E5" ∧ qm.1 ≠ "A3a" := by decide
      obtain ⟨hidem, hnopre, hne5, hna3a⟩ := hall pm hmem
      have hrc : ∀ x, recodeCell col x = apply_map_safe pm.2 x := by
        intro x
        unfold recodeCell
        rw [exactStep_of_find_some hf]
        rw [prefixStep_of_no_match (by rw [← hcol]; exact hnopre)]
        rw [e5Step_of_ne (hcol ▸ hne5), a3aStep_of_ne (hcol ▸ hna3a)]
      rw [hrc v]
      rw [hrc (apply_map_safe pm.2 v)]
      exact apply_map_safe_idem pm.2 hidem v
  | none =>
      by_cases hE : col = "E5"
      · subst hE
        have hrc : ∀ x, recodeCell "E5" x = e5Replace x := by
          intro x
          unfold recodeCell
          rw [exactStep_of_find_none hf]
          rw [prefixStep_of_no_match (by decide)]
          rw [a3aStep_of_ne (by decide)]
          unfold e5Step
          rw [if_pos rfl]
        rw [hrc v]
        rw [hrc (e5Replace v)]
        exact e5Replace_idem v
      · by_cases hA : col = "A3a"
        · subst hA
          have hrc : ∀ x, recodeCell "A3a" x = a3aReplace x := by
            intro x
            unfold recodeCell
            rw [exactStep_of_find_none hf]
            rw [prefixStep_of_no_match (by decide)]
            rw [e5Step_of_ne (by decide)]
            unfold a3aStep
            rw [if_pos rfl]
          rw [hrc v]
          rw [hrc (a3aReplace v)]
          exact a3aReplace_idem v
        · have hrc : ∀ x, recodeCell col x = prefixStep col x := by
            intro x
            unfold recodeCell
            rw [exactStep_of_find_none hf]
            rw [e5Step_of_ne hE, a3aStep_of_ne hA]
          rw [hrc v]
          rw [hrc (prefixStep col v)]
          exact foldl_prefix_idem col PREFIX_MAPS (by decide) (by decide) v

/-- C8 counterexample: the agreement map sends code 2 to the empty string,
and `dropna(axis=1, how="all")` drops only all-NaN columns — so a G23
column whose every cell recoded to `""` survives pruning even though no
cell of it is non-empty, contradicting the claim that every retained
column has at least one non-empty/non-missing cell. -/
theorem all_blank_column_survives_pruning :
    apply_map_safe AGREE_1_7 (Cell.intv 2) = Cell.strv ""
    ∧ dropna_columns [("G23", [apply_map_safe AGREE_1_7 (Cell.intv 2)])]
        = [("G23", [Cell.strv ""])]
    ∧ ([Cell.strv ""].any cell_has_content) = false := by
  refine ⟨by decide, by decide, by decide⟩

/-- C8 amended: after mapping, every column that is missing (NaN) in every
row is dropped, so each column of the cleaned output has at least one
non-missing cell; a column whose cells are all present-but-empty strings
(as the 1–7 agreement map produces) is retained, not dropped. -/
theorem dropna_columns_keep_nonmissing (df : ColTable) (col : String × List Cell)
    (h : col ∈ dropna_columns df) : ∃ v ∈ col.2, v ≠ Cell.na := by
  rcases List.mem_filter.mp h with ⟨_, hc⟩
  rcases List.any_eq_true.mp hc with ⟨v, hv, hdec⟩
  exact ⟨v, hv, of_decide_eq_true hdec⟩

/-- Witness for the amended C8: the kept column ("A", [1]) indeed has a
non-missing cell. -/
theorem dropna_columns_keep_nonmissing_witness :
    ("A", [Cell.intv 1]) ∈ dropna_columns [("A", [Cell.intv 1])]
    ∧ ∃ v ∈ (("A", [Cell.intv 1]) : String × List Cell).2, v ≠ Cell.na :=
  ⟨by decide,
   dropna_columns_keep_nonmissing [("A", [Cell.intv 1])] ("A", [Cell.intv 1]) (by decide)⟩

/-- C3 counterexample: on a cleaned dataset having every needed column
except `Census_Region`, the run does skip the guarded region table and bar
chart with the diagnostic message — but then aborts at the unguarded
region box plot, so the Aggregator/Reporter does NOT complete the
remaining charts when a grouping column is absent. -/
theorem reporter_aborts_without_region :
    Artifact.message "Column 'Census_Region' not found in dataset."
        ∈ (analysisRun colsNoRegion).produced
    ∧ Artifact.table "age" ∈ (analysisRun colsNoRegion).produced
    ∧ (analysisRun colsNoRegion).error
        = some "ValueError: boxplot column Census_Region" := by
  refine ⟨by decide, by decide, by decide⟩

/-- C3 amended: only the region/division summary-table-and-bar-chart
sections are guarded — when `Census_Region` (resp. `Census_Division`) is
absent they are skipped with a diagnostic message and the run continues —
but the closing box-plot sections are unguarded, so the run finishes
without error exactly when both geographic columns are present; with the
region column absent, the earlier tables still print and the region bar
chart is skipped. -/
theorem reporter_guards_only_region_division_sections (cols : List String)
    (hq : ∀ c ∈ LITERACY_COLS, c ∈ cols)
    (hage : "Age" ∈ cols) (hg : "Gender" ∈ cols) :
    ((analysisRun cols).error = none
        ↔ ("Census_Region" ∈ cols ∧ "Census_Division" ∈ cols))
    ∧ ("Census_Region" ∉ cols →
        Artifact.message "Column 'Census_Region' not found in dataset."
            ∈ (analysisRun cols).produced
        ∧ Artifact.chart "literacy_by_region.png" ∉ (analysisRun cols).produced
        ∧ Artifact.table "age" ∈ (analysisRun cols).produced
        ∧ Artifact.table "gender" ∈ (analysisRun cols).produced)
    ∧ ("Census_Division" ∉ cols →
        Artifact.message "Column 'Census_Division' not found in dataset."
            ∈ (analysisRun cols).produced
        ∧ Artifact.chart "literacy_by_division.png" ∉ (analysisRun cols).produced) := by
  have h1 : ¬ ¬ (∀ c ∈ LITERACY_COLS, c ∈ cols) := not_not_intro hq
  by_cases hR : "Census_Region" ∈ cols <;> by_cases hD : "Census_Division" ∈ cols <;>
    simp [analysisRun, hage, hg, hR, hD, h1]

/-- Witness for the amended C3: evaluated on the concrete column list
`colsNoRegion` (everything present except `Census_Region`). -/
theorem reporter_guards_witness :
    (∀ c ∈ LITERACY_COLS, c ∈ colsNoRegion)
    ∧ "Age" ∈ colsNoRegion ∧ "Gender" ∈ colsNoRegion
    ∧ (((analysisRun colsNoRegion).error = none
        ↔ ("Census_Region" ∈ colsNoRegion ∧ "Census_Division" ∈ colsNoRegion))
      ∧ ("Census_Region" ∉ colsNoRegion →
          Artifact.message "Column 'Census_Region' not found in dataset."
              ∈ (analysisRun colsNoRegion).produced
          ∧ Artifact.chart "literacy_by_region.png" ∉ (analysisRun colsNoRegion).produced
          ∧ Artifact.table "age" ∈ (analysisRun colsNoRegion).produced
          ∧ Artifact.table "gender" ∈ (analysisRun colsNoRegion).produced)
      ∧ ("Census_Division" ∉ colsNoRegion →
          Artifact.message "Column 'Census_Division' not found in dataset."
              ∈ (analysisRun colsNoRegion).produced
          ∧ Artifact.chart "literacy_by_division.png" ∉ (analysisRun colsNoRegion).produced)) :=
  ⟨by decide, by decide, by decide,
   reporter_guards_only_region_division_sections colsNoRegion (by decide) (by decide) (by decide)⟩

end NFCS
